import Mathlib

/-
Verification of the HoleFiller sink-filling component
(src/landlab/components/sink_fill/fill_sinks.py).

Shallow embedding notes.

Elevations are modelled as rationals (node id -> value).  The grid, the
flow router and the depression mapper are external collaborators (their
code is not under src/); they are modelled from the spec (sections 3 and 6):
the grid supplies orthogonal and diagonal neighbor lists and planar
point-to-node distances, and the depression mapper is a pure function of
the current elevation surface returning per-node depression depth, the
list of lake outlet node ids, the per-node depression outlet assignment
and the per-node flood status.  `route_flow` only feeds pit ids into the
first `map_depressions` call, so it is folded into the mapper model.

Numpy set operations (`union1d`, `setdiff1d`) are modelled as list
operations up to membership (order and duplicates are irrelevant to every
property below).  `np.allclose` applied to boolean arrays compares 0/1
values with tolerances below 1, hence equals elementwise equality.

The unbounded `while 1` loops of the source are given explicit fuel;
running out of fuel is a distinguished error, and every theorem below
about a completed run is conditioned on a returned value, never on fuel.
-/

namespace FillSinks

/-- Elevation surface: one rational value per node id. -/
abbrev Elev := ℕ → ℚ

/-- The grid collaborator.  Modelled from the spec (section 6): orthogonal
neighbor enumeration, diagonal neighbor enumeration, and planar distance
from a node to another node's coordinates.  `numNodes` bounds the node ids
scanned by whole-array numpy operations. -/
structure Grid where
  numNodes : ℕ
  neighbors : ℕ → List ℕ
  diagonals : ℕ → List ℕ
  dist : ℕ → ℕ → ℚ

/-- Result of one `map_depressions` call.  Modelled from the spec
(section 6, DepressionMapper): per-node depth-to-outlet
(`depression__depth` field), lake outlet node ids (`lake_outlets`),
per-node outlet assignment (`depression_outlet`), and per-node flood
status, recorded here as the boolean `flood_status < BAD_INDEX_VALUE`. -/
structure MapperResult where
  depression_depth : Elev
  lake_outlets : List ℕ
  depression_outlet : ℕ → ℕ
  flood_status : ℕ → Bool

/-- The depression-mapping collaborator: a pure function of the current
elevation surface.  Modelled from the spec (section 6). -/
abbrev Mapper := Elev → MapperResult

/-- HoleFiller.get_lake_ext_margin (src lines 209-216): the union of the
orthogonal and diagonal neighbors of the lake nodes, minus the lake nodes
themselves.  `np.union1d` is modelled as deduplicated concatenation and
`np.setdiff1d` as a filter; both agree with the source up to membership. -/
def get_lake_ext_margin (g : Grid) (lake_nodes : List ℕ) : List ℕ :=
  let all_poss := (lake_nodes.flatMap g.neighbors ++ lake_nodes.flatMap g.diagonals).dedup
  all_poss.filter (fun n => decide (n ∉ lake_nodes))

/-- HoleFiller.drainage_directions_change (src lines 246-259).  For each
external-margin node `e` and each orthogonal neighbor `n` of `e`, the
source compares `old_elevs[e] >= old_elevs[n]` with
`old_elevs[e] >= new_elevs[n]`: the margin node's own elevation is read
from `old_elevs` on both sides (line 255 builds `edge_elevs` from
`old_elevs` only).  `np.allclose` over the two boolean arrays equals
elementwise equality.  Returns `not cond`. -/
def drainage_directions_change (g : Grid) (lake_nodes : List ℕ)
    (old_elevs new_elevs : Elev) : Bool :=
  let ext_edge := get_lake_ext_margin g lake_nodes
  let cond := ext_edge.all fun e =>
    (g.neighbors e).all fun n =>
      decide (old_elevs e ≥ old_elevs n) == decide (old_elevs e ≥ new_elevs n)
  !cond

/-- The drainage-direction-change test as the spec's words state it
(claim reading): the relation `elevations[e] ≥ elevations[n]` is evaluated
with BOTH the margin node's and the neighbor's elevations taken from the
respective elevation state.  Written only to be compared with
`drainage_directions_change`, which embeds the source. -/
def drainage_directions_change_spec (g : Grid) (lake_nodes : List ℕ)
    (old_elevs new_elevs : Elev) : Bool :=
  let ext_edge := get_lake_ext_margin g lake_nodes
  let cond := ext_edge.all fun e =>
    (g.neighbors e).all fun n =>
      decide (old_elevs e ≥ old_elevs n) == decide (new_elevs e ≥ new_elevs n)
  !cond

/-- HoleFiller.add_slopes (src lines 193-207): copies the elevations, finds
the lake nodes (`np.where(depression_outlet == outlet_node)` over the
node array), and adds `slope * distance-to-outlet-coordinates` at each
lake node.  Returns the new elevations and the lake node list. -/
def add_slopes (g : Grid) (depression_outlet : ℕ → ℕ) (slope : ℚ)
    (outlet_node : ℕ) (elev : Elev) : Elev × List ℕ :=
  let lake_nodes := (List.range g.numNodes).filter
    (fun i => decide (depression_outlet i = outlet_node))
  let new_elevs := fun i =>
    if i ∈ lake_nodes then elev i + slope * g.dist i outlet_node else elev i
  (new_elevs, lake_nodes)

/-- HoleFiller.apply_slope_current_lake (src lines 227-244), with explicit
fuel for the source's `while 1`.  Each pass snapshots the elevations,
tilts the current lake via `add_slopes` (the source also computes
`ext_edge` at line 232 but never uses it), then: if `sublake`, accepts the
tilt; else if `drainage_directions_change` reports a change, accepts the
tilt (this is the source's literal branch); else restores the lake nodes
to the snapshot, multiplies the slope by 0.1 and retries. -/
def apply_slope_current_lake (g : Grid) (depression_outlet : ℕ → ℕ) :
    ℕ → ℚ → ℕ → Bool → Elev → Option Elev
  | 0, _, _, _, _ => none
  | fuel + 1, apply_slope, outlet_node, sublake, elev =>
    let starting_elevs := elev
    let p := add_slopes g depression_outlet apply_slope outlet_node elev
    if sublake then some p.1
    else if drainage_directions_change g p.2 starting_elevs p.1 then some p.1
    else
      apply_slope_current_lake g depression_outlet fuel (apply_slope * (1 / 10))
        outlet_node sublake
        (fun i => if i ∈ p.2 then starting_elevs i else p.1 i)

/-- The `for outlet_node in self._lf.lake_outlets` loop of fill_pits
(src lines 157-159): tilt every currently known lake in order.  The slope
passed to each lake is the caller's `apply_slope`; reductions performed
inside `apply_slope_current_lake` are local to that call (Python floats
are immutable and passed by value). -/
def apply_slopes_all (g : Grid) (depression_outlet : ℕ → ℕ) (fuel : ℕ)
    (apply_slope : ℚ) (sublake : Bool) :
    List ℕ → Elev → Option Elev
  | [], elev => some elev
  | outlet_node :: rest, elev =>
    (apply_slope_current_lake g depression_outlet fuel apply_slope outlet_node
        sublake elev).bind
      (apply_slopes_all g depression_outlet fuel apply_slope sublake rest)

/-- Ways a fill_pits run can abort.  `mg_undefined` and
`original_elev_undefined` model the Python NameErrors raised by the
undefined names `mg` (src line 138) and `original_elev` (src line 178);
`out_of_fuel` is the artifact of giving the source's unbounded `while 1`
loops explicit fuel. -/
inductive FillErr where
  | mg_undefined
  | original_elev_undefined
  | out_of_fuel
  deriving DecidableEq

/-- Truthiness of the `apply_slope` argument (src line 149, `if
apply_slope:`): `None` and `0.0` are falsy, every other float is truthy. -/
def slope_truthy : Option ℚ → Bool
  | none => false
  | some s => !decide (s = 0)

/-- The sloped-fill inner loop of fill_pits (src lines 156-168), with
explicit fuel for the `while 1`.  One pass tilts every lake known to the
last `map_depressions` call (outlet list and outlet assignment both come
from that call), re-invokes the mapper on the tilted surface, and exits
returning the elevations and the fresh mapper result when the SUM of the
reported lake outlet node ids equals zero (src line 165,
`self._lf.lake_outlets.sum() == 0.`); otherwise it adds the fresh
depression depths, sets `sublake`, and repeats. -/
def inner_loop (g : Grid) (mapper : Mapper) (fuel_lake : ℕ)
    (apply_slope : ℚ) : ℕ → Bool → Elev → MapperResult →
    Option (Elev × MapperResult)
  | 0, _, _, _ => none
  | fuel + 1, sublake, elev, m =>
    match apply_slopes_all g m.depression_outlet fuel_lake apply_slope sublake
        m.lake_outlets elev with
    | none => none
    | some elev2 =>
      let m2 := mapper elev2
      if m2.lake_outlets.sum = 0 then some (elev2, m2)
      else
        inner_loop g mapper fuel_lake apply_slope fuel true
          (fun i => elev2 i + m2.depression_depth i) m2

/-- The sloped phase of fill_pits (src lines 149-183): run the inner loop
from the flat-filled surface, collect `all_lakes` as the nodes flooded in
the final mapper result (src lines 170-171), and run the final
drainage-direction test against the pre-fill snapshot.  If the test
reports a change, the source's retry branch (src lines 175-183) reads the
undefined name `original_elev` at line 178 and raises NameError on its
first execution, so the reset, the retry counter and the
ten-retry StandardError are unreachable; this is modelled by
`original_elev_undefined`.  If the test passes, the elevations and
`all_lakes` are returned. -/
def fill_pits_sloped (g : Grid) (mapper : Mapper) (fuel_inner fuel_lake : ℕ)
    (original_elev : Elev) (elev1 : Elev) (m0 : MapperResult) (slope : ℚ) :
    Except FillErr (Elev × List ℕ) :=
  match inner_loop g mapper fuel_lake slope fuel_inner false elev1 m0 with
  | none => .error .out_of_fuel
  | some (elev2, mfin) =>
    let all_lakes := (List.range g.numNodes).filter
      (fun i => mfin.flood_status i)
    if drainage_directions_change g all_lakes original_elev elev2 then
      .error .original_elev_undefined
    else .ok (elev2, all_lakes)

/-- HoleFiller.fill_pits (src lines 107-191), elevation pipeline.  The
flow-router and mapper collaborators are folded into `mapper`; the first
`map_depressions(pits=...)` call is the mapper applied to the initial
surface.  Flat fill adds the depression depths (src line 146), the sloped
phase runs only when `apply_slope` is truthy (src line 149), and the
returned pair is the final `topographic__elevation` and the
`sediment_fill__depth` field, set to final minus snapshot (src line 191).
The grid-field snapshot/restore bookkeeping of src lines 134-140 and
184-189 does not touch elevations; its own (NameError-raising) behavior
is embedded separately in `snapshot_existing_fields` and
`fill_pits_full`. -/
def fill_pits (g : Grid) (mapper : Mapper) (fuel_inner fuel_lake : ℕ)
    (elev : Elev) (apply_slope : Option ℚ) : Except FillErr (Elev × Elev) :=
  let original_elev := elev
  let m0 := mapper elev
  let elev1 := fun i => elev i + m0.depression_depth i
  if slope_truthy apply_slope then
    match fill_pits_sloped g mapper fuel_inner fuel_lake original_elev elev1
        m0 (apply_slope.getD 0) with
    | .error e => .error e
    | .ok (elev2, _) => .ok (elev2, fun i => elev2 i - original_elev i)
  else .ok (elev1, fun i => elev1 i - original_elev i)

/-- The grid-field existence snapshot of fill_pits (src lines 134-140):
for each collaborator output field name, the source evaluates
`mg.at_node[field].copy()` inside `try ... except FieldError`.  The name
`mg` is not defined in the module or any enclosing scope, so in Python the
first loop iteration raises NameError (which `except FieldError` does not
catch) before any field is inspected; with an empty field-name collection
the loop body never runs. -/
def snapshot_existing_fields (field_names : List String) :
    Except FillErr (List String) :=
  match field_names with
  | [] => .ok []
  | _ :: _ => .error .mg_undefined

/-- HoleFiller.fill_pits including the grid-field bookkeeping prologue
(src lines 134-140): the existence snapshot runs first; only if it
returns does the fill pipeline (and afterwards the restore/delete
bookkeeping of src lines 184-189) execute.  `field_names` is the union of
the flow-router and depression-mapper output variable names
(src line 136), supplied by the collaborators. -/
def fill_pits_full (field_names : List String) (g : Grid) (mapper : Mapper)
    (fuel_inner fuel_lake : ℕ) (elev : Elev) (apply_slope : Option ℚ) :
    Except FillErr (Elev × Elev) :=
  (snapshot_existing_fields field_names).bind
    (fun _ => fill_pits g mapper fuel_inner fuel_lake elev apply_slope)

/-- Concrete three-node line grid (nodes 0 - 1 - 2, orthogonal links only,
unit spacing) used for witnesses and counterexamples. -/
def g3 : Grid where
  numNodes := 3
  neighbors := fun i =>
    match i with
    | 0 => [1]
    | 1 => [0, 2]
    | 2 => [1]
    | _ => []
  diagonals := fun _ => []
  dist := fun i j => ((max i j - min i j : ℕ) : ℚ)

/-- Elevations 1/2, 0, 0 on the line grid: node 0 slightly above its
neighbor node 1. -/
def elev_half : Elev := fun i => if i = 0 then (1 : ℚ) / 2 else 0

/-- Outlet assignment putting exactly node 1 in the lake draining to
outlet node 0. -/
def outlet_to0 : ℕ → ℕ := fun i => if i = 1 then 0 else 99

/-- Mapper reporting, on every surface, one depression (lake node 1,
outlet node 0), zero depths and no flooded nodes. -/
def mapper_one_lake : Mapper := fun _ =>
  { depression_depth := fun _ => 0
    lake_outlets := [0]
    depression_outlet := outlet_to0
    flood_status := fun _ => false }

/-- Elevations 5, 0, 0 on the line grid. -/
def elev_five : Elev := fun i => if i = 0 then 5 else 0

/-- Mapper reporting, on every surface, depth 10 at node 1, no lake
outlets, and node 1 flooded. -/
def mapper_raise1 : Mapper := fun _ =>
  { depression_depth := fun i => if i = 1 then 10 else 0
    lake_outlets := []
    depression_outlet := fun _ => 99
    flood_status := fun i => i == 1 }

/-- Mapper reporting, on every surface, no depressions at all. -/
def mapper_zero : Mapper := fun _ =>
  { depression_depth := fun _ => 0
    lake_outlets := []
    depression_outlet := fun _ => 99
    flood_status := fun _ => false }

/-- Old elevations 0, 1, 3 for the drainage-test counterexample. -/
def old_c2 : Elev := fun i => if i = 0 then 0 else if i = 1 then 1 else 3

/-- New elevations 0, 5, 3: the margin node 1 itself is raised. -/
def new_c2 : Elev := fun i => if i = 1 then 5 else old_c2 i

/-- Concrete four-node line grid (nodes 0 - 1 - 2 - 3, orthogonal links
only, unit spacing). -/
def g4 : Grid where
  numNodes := 4
  neighbors := fun i =>
    match i with
    | 0 => [1]
    | 1 => [0, 2]
    | 2 => [1, 3]
    | 3 => [2]
    | _ => []
  diagonals := fun _ => []
  dist := fun i j => ((max i j - min i j : ℕ) : ℚ)

/-- Elevations 10, 0, 1/2, 10 on the four-node line grid: a pit at node 1
next to a low saddle at node 2. -/
def orig_w : Elev := fun i =>
  if i = 0 then 10 else if i = 1 then 0 else if i = 2 then (1 : ℚ) / 2 else 10

/-- Mapper reporting, on every surface, one depression (lake node 1,
outlet node 0), nodes 1 and 2 flooded, and zero depths. -/
def mapper_two_flooded : Mapper := fun _ =>
  { depression_depth := fun _ => 0
    lake_outlets := [0]
    depression_outlet := outlet_to0
    flood_status := fun i => i == 1 || i == 2 }

/-- Membership in the external margin: a node is in the margin exactly
when it is an orthogonal or diagonal neighbor of some lake node and is
not itself a lake node. -/
theorem mem_get_lake_ext_margin (g : Grid) (lake_nodes : List ℕ) (x : ℕ) :
    x ∈ get_lake_ext_margin g lake_nodes ↔
      (∃ l ∈ lake_nodes, x ∈ g.neighbors l ∨ x ∈ g.diagonals l) ∧
        x ∉ lake_nodes := by
  unfold get_lake_ext_margin
  simp only [List.mem_filter, List.mem_dedup, List.mem_append,
    List.mem_flatMap, decide_eq_true_eq]
  constructor
  · rintro ⟨h | h, hx⟩
    · obtain ⟨l, hl, hn⟩ := h
      exact ⟨⟨l, hl, Or.inl hn⟩, hx⟩
    · obtain ⟨l, hl, hn⟩ := h
      exact ⟨⟨l, hl, Or.inr hn⟩, hx⟩
  · rintro ⟨⟨l, hl, hn | hn⟩, hx⟩
    · exact ⟨Or.inl ⟨l, hl, hn⟩, hx⟩
    · exact ⟨Or.inr ⟨l, hl, hn⟩, hx⟩

/-- The external margin is disjoint from the lake-node set. -/
theorem get_lake_ext_margin_disjoint (g : Grid) (lake_nodes : List ℕ)
    (x : ℕ) (hx : x ∈ get_lake_ext_margin g lake_nodes) : x ∉ lake_nodes :=
  ((mem_get_lake_ext_margin g lake_nodes x).1 hx).2

/-- Characterization of a passing drainage-direction test: the test
returns `false` exactly when, for every margin node `e` and orthogonal
neighbor `n`, the relation `old[e] ≥ old[n]` agrees with
`old[e] ≥ new[n]`. -/
theorem drainage_directions_change_eq_false (g : Grid) (lake_nodes : List ℕ)
    (old_elevs new_elevs : Elev) :
    drainage_directions_change g lake_nodes old_elevs new_elevs = false ↔
      ∀ e ∈ get_lake_ext_margin g lake_nodes, ∀ n ∈ g.neighbors e,
        (old_elevs e ≥ old_elevs n ↔ old_elevs e ≥ new_elevs n) := by
  unfold drainage_directions_change
  simp only [Bool.not_eq_false', List.all_eq_true, beq_iff_eq,
    decide_eq_decide]

/-- Characterization of a failing drainage-direction test: the test
returns `true` exactly when some margin node `e` and orthogonal neighbor
`n` have `old[e] ≥ old[n]` disagreeing with `old[e] ≥ new[n]`. -/
theorem drainage_directions_change_eq_true (g : Grid) (lake_nodes : List ℕ)
    (old_elevs new_elevs : Elev) :
    drainage_directions_change g lake_nodes old_elevs new_elevs = true ↔
      ∃ e ∈ get_lake_ext_margin g lake_nodes, ∃ n ∈ g.neighbors e,
        ¬(old_elevs e ≥ old_elevs n ↔ old_elevs e ≥ new_elevs n) := by
  constructor
  · intro ht
    by_contra hc
    have hfalse :
        drainage_directions_change g lake_nodes old_elevs new_elevs
          = false := by
      rw [drainage_directions_change_eq_false]
      intro e he n hn
      by_contra hne
      exact hc ⟨e, he, n, hn, hne⟩
    rw [ht] at hfalse
    exact Bool.noConfusion hfalse
  · rintro ⟨e, he, n, hn, h⟩
    cases hx : drainage_directions_change g lake_nodes old_elevs new_elevs with
    | true => rfl
    | false =>
      exact absurd
        ((drainage_directions_change_eq_false g lake_nodes old_elevs
          new_elevs).1 hx e he n hn) h

/-- Tilting never lowers an elevation when the slope and the grid
distances are non-negative. -/
theorem add_slopes_le (g : Grid) (depression_outlet : ℕ → ℕ) (slope : ℚ)
    (outlet_node : ℕ) (elev : Elev) (hs : 0 ≤ slope)
    (hd : ∀ i j, 0 ≤ g.dist i j) (i : ℕ) :
    elev i ≤ (add_slopes g depression_outlet slope outlet_node elev).1 i := by
  unfold add_slopes
  dsimp only
  split
  · exact le_add_of_nonneg_right (mul_nonneg hs (hd i outlet_node))
  · exact le_rfl

/-- Restoring the lake nodes after a tilt returns exactly the starting
surface (the tilt only changed the lake nodes). -/
theorem restore_add_slopes (g : Grid) (depression_outlet : ℕ → ℕ)
    (slope : ℚ) (outlet_node : ℕ) (elev : Elev) :
    (fun i =>
      if i ∈ (add_slopes g depression_outlet slope outlet_node elev).2 then
        elev i
      else (add_slopes g depression_outlet slope outlet_node elev).1 i)
      = elev := by
  funext i
  simp only [add_slopes]
  split
  · rfl
  · rfl

/-- A per-lake tilt round never lowers an elevation: every branch either
tilts upward or restores the starting surface. -/
theorem apply_slope_current_lake_le (g : Grid) (depression_outlet : ℕ → ℕ)
    (hd : ∀ i j, 0 ≤ g.dist i j) (outlet_node : ℕ) (sublake : Bool)
    (e2 : Elev) :
    ∀ fuel slope elev, 0 ≤ slope →
      apply_slope_current_lake g depression_outlet fuel slope outlet_node
        sublake elev = some e2 →
      ∀ i, elev i ≤ e2 i := by
  intro fuel
  induction fuel with
  | zero =>
    intro slope elev _ h
    exact absurd h (by simp [apply_slope_current_lake])
  | succ fuel ih =>
    intro slope elev hs h
    rw [apply_slope_current_lake] at h
    split at h
    · obtain rfl := Option.some.inj h
      exact add_slopes_le g depression_outlet slope outlet_node elev hs hd
    · split at h
      · obtain rfl := Option.some.inj h
        exact add_slopes_le g depression_outlet slope outlet_node elev hs hd
      · rw [restore_add_slopes g depression_outlet slope outlet_node elev]
          at h
        exact ih (slope * (1 / 10)) elev
          (mul_nonneg hs (by norm_num)) h

/-- Tilting all current lakes in order never lowers an elevation. -/
theorem apply_slopes_all_le (g : Grid) (depression_outlet : ℕ → ℕ)
    (hd : ∀ i j, 0 ≤ g.dist i j) (fuel : ℕ) (slope : ℚ) (hs : 0 ≤ slope)
    (sublake : Bool) :
    ∀ outlets elev e2,
      apply_slopes_all g depression_outlet fuel slope sublake outlets elev
        = some e2 →
      ∀ i, elev i ≤ e2 i := by
  intro outlets
  induction outlets with
  | nil =>
    intro elev e2 h i
    obtain rfl := Option.some.inj h
    exact le_rfl
  | cons o rest ih =>
    intro elev e2 h i
    rw [apply_slopes_all] at h
    cases hasc : apply_slope_current_lake g depression_outlet fuel slope o
        sublake elev with
    | none => rw [hasc] at h; exact absurd h (by simp)
    | some mid =>
      rw [hasc] at h
      simp only [Option.some_bind] at h
      exact le_trans
        (apply_slope_current_lake_le g depression_outlet hd o sublake mid
          fuel slope elev hs hasc i)
        (ih mid e2 h i)

/-- The sloped inner loop never lowers an elevation when the mapper
reports non-negative depths. -/
theorem inner_loop_le (g : Grid) (mapper : Mapper)
    (hd : ∀ i j, 0 ≤ g.dist i j) (fuel_lake : ℕ) (slope : ℚ)
    (hs : 0 ≤ slope)
    (hdep : ∀ e i, 0 ≤ (mapper e).depression_depth i) :
    ∀ fuel sublake elev m e2 mfin,
      inner_loop g mapper fuel_lake slope fuel sublake elev m
        = some (e2, mfin) →
      ∀ i, elev i ≤ e2 i := by
  intro fuel
  induction fuel with
  | zero =>
    intro sublake elev m e2 mfin h
    exact absurd h (by simp [inner_loop])
  | succ fuel ih =>
    intro sublake elev m e2 mfin h
    rw [inner_loop] at h
    cases hall : apply_slopes_all g m.depression_outlet fuel_lake slope
        sublake m.lake_outlets elev with
    | none => rw [hall] at h; exact absurd h (by simp)
    | some elev2 =>
      rw [hall] at h
      dsimp only at h
      split at h
      · obtain ⟨rfl, rfl⟩ := Prod.ext_iff.mp (Option.some.inj h)
        exact apply_slopes_all_le g m.depression_outlet hd fuel_lake slope hs
          sublake m.lake_outlets elev elev2 hall
      · intro i
        refine le_trans
          (apply_slopes_all_le g m.depression_outlet hd fuel_lake slope hs
            sublake m.lake_outlets elev elev2 hall i) ?_
        refine le_trans (le_add_of_nonneg_right (hdep elev2 i)) ?_
        exact ih true (fun j => elev2 j + (mapper elev2).depression_depth j)
          (mapper elev2) e2 mfin h i

/-- The sloped phase passes the inner-loop elevations through unchanged,
so it never lowers an elevation either. -/
theorem fill_pits_sloped_le (g : Grid) (mapper : Mapper)
    (fuel_inner fuel_lake : ℕ) (original_elev elev1 : Elev)
    (m0 : MapperResult) (slope : ℚ) (e2 : Elev) (lakes : List ℕ)
    (hd : ∀ i j, 0 ≤ g.dist i j) (hs : 0 ≤ slope)
    (hdep : ∀ e i, 0 ≤ (mapper e).depression_depth i)
    (h : fill_pits_sloped g mapper fuel_inner fuel_lake original_elev elev1
      m0 slope = .ok (e2, lakes)) :
    ∀ i, elev1 i ≤ e2 i := by
  unfold fill_pits_sloped at h
  cases hinner : inner_loop g mapper fuel_lake slope fuel_inner false elev1
      m0 with
  | none => rw [hinner] at h; exact absurd h (by simp)
  | some p =>
    obtain ⟨elev2, mfin⟩ := p
    rw [hinner] at h
    dsimp only at h
    split at h
    · exact absurd h (by simp)
    · obtain ⟨rfl, rfl⟩ := Prod.ext_iff.mp (Except.ok.inj h)
      exact inner_loop_le g mapper hd fuel_lake slope hs hdep fuel_inner
        false elev1 m0 elev2 mfin hinner

/-- Every successful fill_pits run returns elevations that dominate the
snapshot pointwise, and a sediment field equal to final minus snapshot. -/
theorem fill_pits_ok_le (g : Grid) (mapper : Mapper)
    (fuel_inner fuel_lake : ℕ) (elev : Elev) (apply_slope : Option ℚ)
    (fin_elev sed : Elev)
    (hdep : ∀ e i, 0 ≤ (mapper e).depression_depth i)
    (hd : ∀ i j, 0 ≤ g.dist i j)
    (hpos : ∀ s, apply_slope = some s → 0 ≤ s)
    (h : fill_pits g mapper fuel_inner fuel_lake elev apply_slope
      = .ok (fin_elev, sed)) :
    (∀ i, elev i ≤ fin_elev i) ∧ ∀ i, sed i = fin_elev i - elev i := by
  unfold fill_pits at h
  by_cases ht : slope_truthy apply_slope = true
  · rw [if_pos ht] at h
    have hs : 0 ≤ apply_slope.getD 0 := by
      cases apply_slope with
      | none => exact le_rfl
      | some s => exact hpos s rfl
    cases hsl : fill_pits_sloped g mapper fuel_inner fuel_lake elev
        (fun i => elev i + (mapper elev).depression_depth i) (mapper elev)
        (apply_slope.getD 0) with
    | error e => rw [hsl] at h; exact absurd h (by simp)
    | ok p =>
      obtain ⟨elev2, lakes⟩ := p
      rw [hsl] at h
      dsimp only at h
      obtain ⟨rfl, rfl⟩ := Prod.ext_iff.mp (Except.ok.inj h)
      refine ⟨fun i => ?_, fun i => rfl⟩
      refine le_trans (le_add_of_nonneg_right (hdep elev i)) ?_
      exact fill_pits_sloped_le g mapper fuel_inner fuel_lake elev
        (fun i => elev i + (mapper elev).depression_depth i) (mapper elev)
        (apply_slope.getD 0) elev2 lakes hd hs hdep hsl i
  · rw [if_neg ht] at h
    obtain ⟨rfl, rfl⟩ := Prod.ext_iff.mp (Except.ok.inj h)
    exact ⟨fun i => le_add_of_nonneg_right (hdep elev i), fun i => rfl⟩

/-- C8: for every set of lake nodes, `get_lake_ext_margin` returns exactly
the union of all orthogonal and diagonal neighbors of the lake nodes with
the lake nodes themselves removed; in particular (right conjunct of the
membership condition) the returned set is disjoint from the input
lake-node set. -/
theorem C8_get_lake_ext_margin_exact (g : Grid) (lake_nodes : List ℕ)
    (x : ℕ) :
    x ∈ get_lake_ext_margin g lake_nodes ↔
      (∃ l ∈ lake_nodes, x ∈ g.neighbors l ∨ x ∈ g.diagonals l) ∧
        x ∉ lake_nodes :=
  mem_get_lake_ext_margin g lake_nodes x

/-- C7: `add_slopes` returns an elevation array that, at every node of the
grid whose assigned depression outlet equals `outlet_node`, equals the
current elevation plus `slope` times the planar distance from that node to
the outlet node's coordinates, and at every other node equals the current
elevation unchanged.  (The embedding is a pure function, so the shared
elevation field is not mutated by construction.) -/
theorem C7_add_slopes_correct (g : Grid) (depression_outlet : ℕ → ℕ)
    (slope : ℚ) (outlet_node : ℕ) (elev : Elev) (i : ℕ)
    (hi : i < g.numNodes) :
    (add_slopes g depression_outlet slope outlet_node elev).1 i =
      if depression_outlet i = outlet_node then
        elev i + slope * g.dist i outlet_node
      else elev i := by
  unfold add_slopes
  by_cases h : depression_outlet i = outlet_node
  · simp [List.mem_filter, List.mem_range, hi, h]
  · simp [List.mem_filter, List.mem_range, hi, h]

/-- Witness for C7 at a concrete input: node 1 of the line grid belongs to
the lake draining to outlet node 0 and is raised by slope times its unit
distance to the outlet. -/
theorem C7_witness :
    1 < g3.numNodes ∧
      (add_slopes g3 outlet_to0 1 0 elev_half).1 1 =
        if outlet_to0 1 = 0 then elev_half 1 + 1 * g3.dist 1 0
        else elev_half 1 :=
  ⟨by decide, C7_add_slopes_correct g3 outlet_to0 1 0 elev_half 1 (by decide)⟩

/-- C2 (amended): `drainage_directions_change` returns `true` iff some
external-margin node `e` and orthogonal neighbor `n` of `e` have the
relation `old[e] ≥ old[n]` disagreeing with `old[e] ≥ new[n]` — the margin
node's own elevation is read from the OLD state on both sides of the
comparison; only the neighbor's elevation switches state.  The embedding
is a pure function of its inputs. -/
theorem C2_drainage_directions_change_amended (g : Grid)
    (lake_nodes : List ℕ) (old_elevs new_elevs : Elev) :
    drainage_directions_change g lake_nodes old_elevs new_elevs = true ↔
      ∃ e ∈ get_lake_ext_margin g lake_nodes, ∃ n ∈ g.neighbors e,
        ¬(old_elevs e ≥ old_elevs n ↔ old_elevs e ≥ new_elevs n) :=
  drainage_directions_change_eq_true g lake_nodes old_elevs new_elevs

/-- Counterexample to C2 as stated: with lake `[0]` on the line grid,
margin node 1 is raised from 1 to 5 while its neighbor node 2 stays at 3,
so the relation `elev[1] ≥ elev[2]` taken in each respective state flips
(1 ≥ 3 is false, 5 ≥ 3 is true), yet the source function returns `false`
because it reads node 1's elevation from the old state on both sides. -/
theorem C2_counterexample :
    drainage_directions_change g3 [0] old_c2 new_c2 = false ∧
      drainage_directions_change_spec g3 [0] old_c2 new_c2 = true := by
  exact ⟨by decide, by decide⟩

unseal Rat.add Rat.mul Rat.sub Rat.inv in
/-- C3 (code bug): at a concrete non-subsidiary lake (node 1 draining to
outlet node 0 on the line grid, slope 1), the drainage-direction-change
test reports a change for the tilt, and `apply_slope_current_lake`
nevertheless ACCEPTS the tilt — the returned elevation at node 1 is the
tilted value 1, not the restored starting value 0.  The source's accept
condition is inverted relative to the claim. -/
theorem C3_accepts_tilt_on_reported_change :
    (apply_slope_current_lake g3 outlet_to0 2 1 0 false elev_half).map
        (fun e => e 1) = some 1 ∧
      drainage_directions_change g3
          (add_slopes g3 outlet_to0 1 0 elev_half).2 elev_half
          (add_slopes g3 outlet_to0 1 0 elev_half).1 = true ∧
      elev_half 1 = 0 := by
  refine ⟨by decide, by decide, by decide⟩

unseal Rat.add Rat.mul Rat.sub Rat.inv in
/-- C6 (code bug): the inner loop exit test is `lake_outlets.sum() == 0`,
the sum of the reported outlet node IDS.  At a concrete input whose
mapper pass reports exactly one lake outlet, node 0, the loop exits even
though one lake outlet was reported. -/
theorem C6_inner_loop_exit_on_outlet_id_zero :
    (inner_loop g3 mapper_one_lake 2 1 2 false elev_half
        (mapper_one_lake elev_half)).map (fun p => p.2.lake_outlets) =
      some [0] ∧
      ([0] : List ℕ) ≠ [] := by
  exact ⟨by decide, by decide⟩

unseal Rat.add Rat.mul Rat.sub Rat.inv in
/-- C4 (code bug): at a concrete input whose final drainage-direction test
over the flooded nodes reports a change (the flat fill raises node 1 from
0 to 10, above margin node 0 at 5), the retry branch is taken and the run
aborts with the NameError modelled by `original_elev_undefined`: the reset
to the pre-fill snapshot, the retry counter, and the ten-retry fatal
error are unreachable in the source. -/
theorem C4_unstable_retry_hits_undefined_name :
    fill_pits g3 mapper_raise1 2 2 elev_five (some 1) =
      .error .original_elev_undefined := by
  rfl

/-- C9 (code bug): whenever the collaborators declare at least one output
field name, the existence-snapshot loop of fill_pits raises the NameError
modelled by `mg_undefined` before anything else runs, so the claimed
restore/delete bookkeeping never executes. -/
theorem C9_bookkeeping_prologue_raises (f : String) (fs : List String)
    (g : Grid) (mapper : Mapper) (fuel_inner fuel_lake : ℕ) (elev : Elev)
    (apply_slope : Option ℚ) :
    fill_pits_full (f :: fs) g mapper fuel_inner fuel_lake elev apply_slope =
      .error .mg_undefined := by
  rfl

/-- C10: calling fill_pits with `apply_slope = 0.0` is behaviorally
identical to calling it with `apply_slope = None`: the truthiness test
skips all slope rounds, per-lake tilting and stability checks, and the
returned elevations and sediment fill depths coincide. -/
theorem C10_zero_slope_equals_none (g : Grid) (mapper : Mapper)
    (fuel_inner fuel_lake : ℕ) (elev : Elev) :
    fill_pits g mapper fuel_inner fuel_lake elev (some 0) =
      fill_pits g mapper fuel_inner fuel_lake elev none := by
  rfl

/-- C5: after any successful fill_pits call (with or without a slope
argument), the sediment_fill__depth array — final elevation minus the
pre-operation snapshot at each node — is elementwise non-negative,
assuming the depression mapper supplies non-negative per-node depths and
the supplied slope (if any) is positive. -/
theorem C5_sediment_fill_depth_nonneg (g : Grid) (mapper : Mapper)
    (fuel_inner fuel_lake : ℕ) (elev : Elev) (apply_slope : Option ℚ)
    (fin_elev sed : Elev)
    (hdep : ∀ e i, 0 ≤ (mapper e).depression_depth i)
    (hd : ∀ i j, 0 ≤ g.dist i j)
    (hpos : ∀ s, apply_slope = some s → 0 < s)
    (h : fill_pits g mapper fuel_inner fuel_lake elev apply_slope
      = .ok (fin_elev, sed)) :
    ∀ i, 0 ≤ sed i := by
  obtain ⟨hle, hsed⟩ := fill_pits_ok_le g mapper fuel_inner fuel_lake elev
    apply_slope fin_elev sed hdep hd (fun s hs => (hpos s hs).le) h
  intro i
  rw [hsed i]
  exact sub_nonneg.mpr (hle i)

/-- Witness for C5 at a concrete input: a no-slope run on the line grid
with the trivial mapper, evaluated at node 0. -/
theorem C5_witness :
    0 ≤ (elev_five 0 + (mapper_zero elev_five).depression_depth 0)
      - elev_five 0 :=
  C5_sediment_fill_depth_nonneg g3 mapper_zero 1 1 elev_five none _ _
    (fun _ _ => le_refl 0) (fun _ _ => Nat.cast_nonneg _)
    (fun _ h => nomatch h) rfl 0

/-- C1: whenever the sloped phase of fill_pits completes successfully, for
every external-margin node `e` of the processed-lakes region (`all_lakes`,
the flooded nodes the final stability test ranged over) and every
orthogonal neighbor `n` of `e`, the relation `elevation[e] ≥ elevation[n]`
is identical between the pre-fill snapshot and the returned elevations.
The coverage hypothesis — every node the run modified is among
`all_lakes` — is the spec's step-3 premise that the final flooded
collection spans all lakes processed by the sloped rounds. -/
theorem C1_margin_drainage_relation_preserved (g : Grid) (mapper : Mapper)
    (fuel_inner fuel_lake : ℕ) (original_elev elev1 : Elev)
    (m0 : MapperResult) (slope : ℚ) (final_elev : Elev) (all_lakes : List ℕ)
    (hrun : fill_pits_sloped g mapper fuel_inner fuel_lake original_elev
      elev1 m0 slope = .ok (final_elev, all_lakes))
    (hcover : ∀ i, final_elev i ≠ original_elev i → i ∈ all_lakes) :
    ∀ e ∈ get_lake_ext_margin g all_lakes, ∀ n ∈ g.neighbors e,
      (original_elev e ≥ original_elev n ↔ final_elev e ≥ final_elev n) := by
  unfold fill_pits_sloped at hrun
  cases hinner : inner_loop g mapper fuel_lake slope fuel_inner false elev1
      m0 with
  | none => rw [hinner] at hrun; exact absurd hrun (by simp)
  | some p =>
    obtain ⟨elev2, mfin⟩ := p
    rw [hinner] at hrun
    dsimp only at hrun
    split at hrun
    · exact absurd hrun (by simp)
    · next hstable =>
      rw [Except.ok.injEq, Prod.mk.injEq] at hrun
      obtain ⟨h1, h2⟩ := hrun
      subst h1
      subst h2
      have hchar := (drainage_directions_change_eq_false g _ original_elev
        elev2).1 (Bool.not_eq_true _ |>.mp hstable)
      intro e he n hn
      have hfe : elev2 e = original_elev e := by
        by_contra hne
        exact get_lake_ext_margin_disjoint g _ e he (hcover e hne)
      rw [hfe]
      exact hchar e he n hn

unseal Rat.add Rat.mul Rat.sub Rat.inv in
/-- Witness for C1 at a concrete input: on the four-node line grid, the
lake at node 1 (outlet node 0) is tilted at slope 1, the run completes
with flooded nodes 1 and 2, and the margin relation between node 0 and
its neighbor node 1 is preserved. -/
theorem C1_witness :
    orig_w 0 ≥ orig_w 1 ↔
      (add_slopes g4 outlet_to0 1 0 orig_w).1 0 ≥
        (add_slopes g4 outlet_to0 1 0 orig_w).1 1 :=
  C1_margin_drainage_relation_preserved g4 mapper_two_flooded 2 2 orig_w
    orig_w (mapper_two_flooded orig_w) 1
    ((add_slopes g4 outlet_to0 1 0 orig_w).1) [1, 2] rfl
    (by
      intro i hne
      by_cases hm : i ∈ (List.range g4.numNodes).filter
          (fun j => decide (outlet_to0 j = 0))
      · have h0 : outlet_to0 i = 0 := by
          simpa using (List.mem_filter.mp hm).2
        have h1 : i = 1 := by
          by_contra hne1
          simp [outlet_to0, hne1] at h0
        simp [h1]
      · exfalso
        apply hne
        show (add_slopes g4 outlet_to0 1 0 orig_w).1 i = orig_w i
        simp only [add_slopes]
        rw [if_neg hm])
    0 (by decide) 1 (by decide)

end FillSinks
